import Mathlib

/-!
Verification of the DNS resolution subsystem of the `minecraft_status`
repository (crate `dns`): the record-chasing algorithm
(`src/dns/src/domain_lookup.rs`), the multi-server fallback, the resolve
entry point, and the platform nameserver discovery
(`src/dns/src/servers/unix.rs`, `src/dns/src/servers/windows/adapter_info.rs`,
`src/dns/src/servers/mod.rs`).

The Rust code is shallowly embedded: network and file-system effects are
replaced by explicit inputs (a `DnsServer` answer table per nameserver, the
configuration file contents as an `Option String`, the raw adapter list as
returned by the platform API), and the unbounded recursion of
`domain_lookup_inner` is given an explicit fuel parameter whose exhaustion
(`ChaseOutcome.outOfFuel`) marks that the original program is still running
after that many chase rounds.
-/

namespace MinecraftDns

/-! ## IP addresses

Rust `std::net` types. `Ipv4` models `Ipv4Addr` (four octets), `IpAddr`
models `IpAddr` (V4 or V6, the latter as its 128-bit value). -/

/-- Model of `std::net::Ipv4Addr`: four octets. -/
structure Ipv4 where
  o1 : Fin 256
  o2 : Fin 256
  o3 : Fin 256
  o4 : Fin 256
deriving DecidableEq, Repr

/-- Model of `std::net::IpAddr`. -/
inductive IpAddr where
  | v4 (addr : Ipv4)
  | v6 (addr : Nat)
deriving DecidableEq, Repr

/-- Decimal digit to character. -/
def digitChar (n : Nat) : Char := Char.ofNat (48 + n)

/-- Decimal rendering of one octet (value below 256), as Rust's `Display`
for `u8` prints it: no leading zeros. -/
def octetChars (n : Nat) : List Char :=
  if n < 10 then [digitChar n]
  else if n < 100 then [digitChar (n / 10), digitChar (n % 10)]
  else [digitChar (n / 100), digitChar (n / 10 % 10), digitChar (n % 10)]

/-- Model of `Ipv4Addr::to_string` (as called by `a.to_string()` on the A
record in `domain_lookup_inner`): dotted-quad decimal. -/
def ipv4ToChars (ip : Ipv4) : List Char :=
  octetChars ip.o1.val ++
    ('.' :: (octetChars ip.o2.val ++
      ('.' :: (octetChars ip.o3.val ++
        ('.' :: octetChars ip.o4.val)))))

/-- String form of `ipv4ToChars`. -/
def ipv4ToString (ip : Ipv4) : String := String.mk (ipv4ToChars ip)

/-- Splits a character list on a separator; groups do not contain the
separator. Models `str::split`. -/
def splitOnChar (sep : Char) : List Char → List (List Char)
  | [] => [[]]
  | c :: rest =>
    if c = sep then [] :: splitOnChar sep rest
    else
      match splitOnChar sep rest with
      | [] => [[c]]
      | group :: groups => (c :: group) :: groups

/-- True when a candidate octet has a superfluous leading zero
(rejected by Rust's `u8::from_str` inside `Ipv4Addr` parsing). -/
def leadingZero (cs : List Char) : Bool :=
  match cs with
  | '0' :: _ :: _ => true
  | _ => false

/-- Numeric value of a decimal digit string. -/
def octetVal (cs : List Char) : Nat :=
  cs.foldl (fun acc c => acc * 10 + (c.toNat - 48)) 0

/-- Model of parsing one octet of an IPv4 dotted quad, per Rust's
`Ipv4Addr::from_str`: nonempty, all decimal digits, no leading zero,
value below 256. -/
def parseOctet (cs : List Char) : Option (Fin 256) :=
  if cs.isEmpty || !(cs.all Char.isDigit) || leadingZero cs then none
  else
    let n := octetVal cs
    if h : n < 256 then some ⟨n, h⟩ else none

/-- Model of `Ipv4Addr::from_str`: exactly four dot-separated octets. -/
def ipv4FromChars (cs : List Char) : Option Ipv4 :=
  match splitOnChar '.' cs with
  | [a, b, c, d] =>
    match parseOctet a, parseOctet b, parseOctet c, parseOctet d with
    | some o1, some o2, some o3, some o4 => some ⟨o1, o2, o3, o4⟩
    | _, _, _, _ => none
  | _ => none

/-- Model of `std::net::IpAddr::from_str` as used throughout the crate.
Only the IPv4 dotted-quad syntax is modelled; no claim of this
development exercises textual IPv6 literals, which this model maps to
`none` along with every other non-IPv4-literal string. -/
def ipFromStr (s : String) : Option IpAddr :=
  (ipv4FromChars s.data).map IpAddr.v4

/-! ### Round-trip of octet printing and parsing -/

set_option maxRecDepth 4000 in
/-- Printing an octet yields digits without dots, and parsing it back
recovers the value. Checked exhaustively over all 256 octets. -/
theorem octetChars_spec : ∀ n : Fin 256,
    '.' ∉ octetChars n.val ∧ parseOctet (octetChars n.val) = some n := by
  decide

/-- A list without the separator forms a single group. -/
theorem splitOnChar_of_not_mem (sep : Char) (cs : List Char) (h : sep ∉ cs) :
    splitOnChar sep cs = [cs] := by
  induction cs with
  | nil => rfl
  | cons c rest ih =>
    have hc : c ≠ sep := fun hcs => h (hcs ▸ List.mem_cons_self c rest)
    have hrest : sep ∉ rest := fun hm => h (List.mem_cons_of_mem c hm)
    simp [splitOnChar, hc, ih hrest]

/-- Splitting distributes over an explicit separator occurrence. -/
theorem splitOnChar_append (sep : Char) (xs ys : List Char) (h : sep ∉ xs) :
    splitOnChar sep (xs ++ sep :: ys) = xs :: splitOnChar sep ys := by
  induction xs with
  | nil => simp [splitOnChar]
  | cons x xs ih =>
    have hx : x ≠ sep := fun hxs => h (hxs ▸ List.mem_cons_self x xs)
    have hxs : sep ∉ xs := fun hm => h (List.mem_cons_of_mem x hm)
    have hne : splitOnChar sep (xs ++ sep :: ys) = xs :: splitOnChar sep ys := ih hxs
    simp [splitOnChar, hx, hne]

/-- The dotted-quad printer splits back into the four octet groups. -/
theorem splitOnChar_ipv4ToChars (ip : Ipv4) :
    splitOnChar '.' (ipv4ToChars ip) =
      [octetChars ip.o1.val, octetChars ip.o2.val,
       octetChars ip.o3.val, octetChars ip.o4.val] := by
  unfold ipv4ToChars
  rw [splitOnChar_append _ _ _ (octetChars_spec ip.o1).1,
    splitOnChar_append _ _ _ (octetChars_spec ip.o2).1,
    splitOnChar_append _ _ _ (octetChars_spec ip.o3).1,
    splitOnChar_of_not_mem _ _ (octetChars_spec ip.o4).1]

/-- Stringifying an A-record address and parsing it back (as
`domain_lookup_inner` does) recovers the address. -/
theorem ipFromStr_ipv4ToString (ip : Ipv4) :
    ipFromStr (ipv4ToString ip) = some (IpAddr.v4 ip) := by
  show (ipv4FromChars (ipv4ToChars ip)).map IpAddr.v4 = some (IpAddr.v4 ip)
  rw [ipv4FromChars, splitOnChar_ipv4ToChars]
  simp [(octetChars_spec ip.o1).2, (octetChars_spec ip.o2).2,
    (octetChars_spec ip.o3).2, (octetChars_spec ip.o4).2]

/-! ## Record chase (`src/dns/src/domain_lookup.rs`)

One `find_record!` invocation either fails at the transport/DNS-parse
level (a `?` in the macro body: socket send/recv error or malformed
response), or succeeds and yields the first answer of the requested
record kind, or succeeds with no answer of that kind. -/

/-- Outcome of one `find_record!` query. -/
inductive QueryResult (α : Type) where
  | ans (val : α)
  | noAns
  | err
deriving DecidableEq

/-- The fields of a rustdns SRV resource used by `domain_lookup_inner`:
target name and port. -/
structure SrvRecord where
  name : String
  port : Nat
deriving DecidableEq

/-- A single nameserver's answer behaviour, keyed by the query name.
`srv` is consulted at the full query name (`_minecraft._tcp.<domain>`),
`a` and `cname` at the domain itself. -/
structure DnsServer where
  srv : String → QueryResult SrvRecord
  a : String → QueryResult Ipv4
  cname : String → QueryResult String

/-- Failure of one chase round against one nameserver: the
`anyhow!("no valid records")` error, or a propagated transport/parse
error from `find_record!`. -/
inductive LookupError where
  | noRecords
  | transport
deriving DecidableEq

/-- Result of the fuelled chase: success, failure, or fuel exhaustion —
the unbounded Rust recursion is still running after that many rounds. -/
inductive ChaseOutcome where
  | ok (ip : IpAddr) (port : Nat)
  | fail (e : LookupError)
  | outOfFuel
deriving DecidableEq

/-- One round of the record chase: the `if let` chain of
`domain_lookup_inner` (lines 65-79): SRV at `_minecraft._tcp.<domain>`
adopting both target and port, else A adopting the stringified address
and keeping the port, else CNAME adopting the target and keeping the
port, else the "no valid records" error. A transport/parse error in any
consulted query propagates immediately. -/
def chaseStep (server : DnsServer) (domain : String) (port : Nat) :
    Except LookupError (String × Nat) :=
  match server.srv ("_minecraft._tcp." ++ domain) with
  | .err => .error .transport
  | .ans srv => .ok (srv.name, srv.port)
  | .noAns =>
    match server.a domain with
    | .err => .error .transport
    | .ans a => .ok (ipv4ToString a, port)
    | .noAns =>
      match server.cname domain with
      | .err => .error .transport
      | .ans cname => .ok (cname, port)
      | .noAns => .error .noRecords

/-- `domain_lookup_inner` (lines 63-89): run a chase round, then test the
adopted name for being a literal IP address; on success return it with
the current port, otherwise repeat on the new name. The Rust function
recurses without any bound; `fuel` makes the embedding total, and
`outOfFuel` at every fuel value means the original diverges. -/
def domain_lookup_inner (server : DnsServer) : Nat → String → Nat → ChaseOutcome
  | 0, _, _ => .outOfFuel
  | fuel + 1, domain, port =>
    match chaseStep server domain port with
    | .error e => .fail e
    | .ok (name, port2) =>
      match ipFromStr name with
      | some ip => .ok ip port2
      | none => domain_lookup_inner server fuel name port2

/-! ## Multi-server fallback and entry point

`domain_lookup_with_servers` (lines 96-109) and `domain_lookup`
(lines 112-128). The per-nameserver resolver is abstracted as a function
`li : IpAddr → Option (IpAddr × Nat)`: the Rust code converts each
`domain_lookup_individual` result with `.ok()`, so only success versus
any failure is observable at this layer. -/

/-- Models `Result::ok()` applied to one nameserver's chase outcome. At
insufficient fuel the attempt counts as failed. -/
def chaseToOption : ChaseOutcome → Option (IpAddr × Nat)
  | .ok ip port => some (ip, port)
  | .fail _ => none
  | .outOfFuel => none

/-- `domain_lookup_with_servers`: `filter_map(.. .ok()).next()` — try each
nameserver in list order, return the first success; `none` models the
`anyhow!("no valid records on any DNS servers")` error. -/
def domain_lookup_with_servers (li : IpAddr → Option (IpAddr × Nat)) :
    List IpAddr → Option (IpAddr × Nat)
  | [] => none
  | server :: rest =>
    match li server with
    | some result => some result
    | none => domain_lookup_with_servers li rest

/-- The nameservers `domain_lookup_with_servers` actually invokes, in
order: the lazy `filter_map` chain consults servers only up to and
including the first success. -/
def attempted_servers (li : IpAddr → Option (IpAddr × Nat)) :
    List IpAddr → List IpAddr
  | [] => []
  | server :: rest =>
    match li server with
    | some _ => [server]
    | none => server :: attempted_servers li rest

/-- The `DEFAULT_DNS_SERVERS` constant of `domain_lookup.rs`
(lines 113-116): `1.1.1.1` then `1.0.0.1`. -/
def DEFAULT_DNS_SERVERS : List IpAddr :=
  [IpAddr.v4 ⟨1, 1, 1, 1⟩, IpAddr.v4 ⟨1, 0, 0, 1⟩]

/-- `domain_lookup` (lines 112-128): try the OS-discovered list first;
on failure of that whole tier, return the result of the hardcoded
default tier. -/
def domain_lookup (li : IpAddr → Option (IpAddr × Nat))
    (osServers : List IpAddr) : Option (IpAddr × Nat) :=
  match domain_lookup_with_servers li osServers with
  | some result => some result
  | none => domain_lookup_with_servers li DEFAULT_DNS_SERVERS

/-- All nameservers `domain_lookup` invokes, in order, across both tiers. -/
def domain_lookup_attempts (li : IpAddr → Option (IpAddr × Nat))
    (osServers : List IpAddr) : List IpAddr :=
  match domain_lookup_with_servers li osServers with
  | some _ => attempted_servers li osServers
  | none => attempted_servers li osServers ++
      attempted_servers li DEFAULT_DNS_SERVERS

/-! ## Unix nameserver discovery (`src/dns/src/servers/unix.rs`)

The contents of `/etc/resolv.conf` are an explicit input: `none` when
`std::fs::read_to_string` fails, `some contents` otherwise. -/

/-- Model of Rust `str::lines`: split on a line feed, drop a final empty
piece produced by a trailing line feed, and strip one trailing carriage
return from each line. -/
def rustLines (s : String) : List String :=
  let parts := splitOnChar (Char.ofNat 10) s.data
  let parts := if parts.getLast? = some [] then parts.dropLast else parts
  parts.map fun l =>
    if l.getLast? = some (Char.ofNat 13) then String.mk l.dropLast else String.mk l

/-- Model of `str::strip_prefix` on character lists: the remainder when
the literal leads the list. -/
def stripLit : List Char → List Char → Option (List Char)
  | [], rest => some rest
  | _ :: _, [] => none
  | l :: lit, c :: cs => if l = c then stripLit lit cs else none

/-- `line.strip_prefix("nameserver ")` as used by `find_servers`. -/
def dropNameserver (line : String) : Option String :=
  (stripLit "nameserver ".data line.data).map String.mk

/-- `find_servers` of `servers/unix.rs` (lines 5-22): take every line of
the configuration file that starts with `nameserver `, parse the
remainder as an IP address, skip everything else; answer `none` when the
file is unreadable or no line yields a valid address. -/
def unix_find_servers (contents : Option String) : Option (List IpAddr) :=
  match contents with
  | none => none
  | some resolv_conf =>
    let servers :=
      ((rustLines resolv_conf).filterMap dropNameserver).filterMap ipFromStr
    if servers.length > 0 then some servers else none

/-! ## Windows nameserver discovery
(`src/dns/src/servers/windows/adapter_info.rs`, `windows/mod.rs`)

The two `GetAdaptersAddresses` calls are abstracted into the input: `none`
when either call fails (wrong return code), `some raws` when the linked
adapter list was delivered — each raw adapter carrying its two metrics
and its linked list of DNS-server socket addresses tagged by family. -/

/-- One `IP_ADAPTER_DNS_SERVER_ADDRESS_XP` node: a socket address tagged
with its `sa_family`. -/
inductive RawDnsEntry where
  | v4 (addr : Ipv4)
  | v6 (addr : Nat)
  | unknown (family : Nat)
deriving DecidableEq

/-- One `IP_ADAPTER_ADDRESSES_LH` node as read by `AdapterInfo::new`. -/
structure RawAdapter where
  ipv4Metric : Nat
  ipv6Metric : Nat
  entries : List RawDnsEntry
deriving DecidableEq

/-- `AdapterInfo` (adapter_info.rs lines 15-22). -/
structure AdapterInfo where
  ipv4_metric : Nat
  ipv6_metric : Nat
  dns_servers : List IpAddr
deriving DecidableEq

/-- `AdapterInfo::read_dns_servers` (lines 30-71): walk the DNS-entry
list converting each address by family; an unrecognized family makes the
whole walk answer `None`, discarding the servers already collected. -/
def read_dns_servers : List RawDnsEntry → Option (List IpAddr)
  | [] => some []
  | entry :: rest =>
    match entry with
    | .v4 addr => (read_dns_servers rest).map fun s => IpAddr.v4 addr :: s
    | .v6 addr => (read_dns_servers rest).map fun s => IpAddr.v6 addr :: s
    | .unknown _ => none

/-- `AdapterInfo::new` (lines 74-87). -/
def AdapterInfo.new (raw : RawAdapter) : Option AdapterInfo :=
  (read_dns_servers raw.entries).map fun servers =>
    { ipv4_metric := raw.ipv4Metric
      ipv6_metric := raw.ipv6Metric
      dns_servers := servers }

/-- The sort key of `AdapterInfoList::new` line 175:
`min(ipv4_metric, ipv6_metric)`. -/
def adapterKey (adapter : AdapterInfo) : Nat :=
  min adapter.ipv4_metric adapter.ipv6_metric

/-- `AdapterInfoList::new` (lines 125-178): on a successful API exchange,
keep every adapter `AdapterInfo::new` accepts (an invalid adapter is only
logged and skipped) and sort ascending by `adapterKey`. The code uses
`sort_unstable_by_key`, whose result on tied keys is unspecified;
insertion sort realises one admissible result, and every claim below
concerns strictly ordered keys only. -/
def adapterInfoList_new (api : Option (List RawAdapter)) :
    Option (List AdapterInfo) :=
  match api with
  | none => none
  | some raws =>
    some ((raws.filterMap AdapterInfo.new).insertionSort
      fun a b => adapterKey a ≤ adapterKey b)

/-- `AdapterInfoList::dns_servers` (lines 181-186): flatten each
adapter's server list in adapter order. -/
def adapterList_dns_servers (adapters : List AdapterInfo) : List IpAddr :=
  adapters.flatMap fun adapter => adapter.dns_servers

/-- `find_servers` of `servers/windows/mod.rs` (lines 7-17). -/
def windows_find_servers (api : Option (List RawAdapter)) :
    Option (List IpAddr) :=
  match adapterInfoList_new api with
  | none => none
  | some adapters =>
    let servers := adapterList_dns_servers adapters
    if servers.length > 0 then some servers else none

/-! ## Nameserver provider (`src/dns/src/servers/mod.rs`) -/

/-- The local default pair of `dns_servers` in `servers/mod.rs`
(lines 22-29): `1.1.1.1` then `1.0.0.1`. -/
def default_servers : List IpAddr :=
  [IpAddr.v4 ⟨1, 1, 1, 1⟩, IpAddr.v4 ⟨1, 0, 0, 1⟩]

/-- `dns_servers` (lines 22-29): the discovery result, or the default
pair when discovery found nothing. -/
def dns_servers (found : Option (List IpAddr)) : List IpAddr :=
  found.getD default_servers

/-! ## One-round unfolding lemmas for the record chase -/

/-- With an SRV answer, a round adopts its target and port and proceeds
to the literal-IP test; the A and CNAME tables are never consulted. -/
theorem inner_round_srv (server : DnsServer) (domain : String)
    (port fuel : Nat) (rec : SrvRecord)
    (h : server.srv ("_minecraft._tcp." ++ domain) = .ans rec) :
    domain_lookup_inner server (fuel + 1) domain port =
      match ipFromStr rec.name with
      | some ip => .ok ip rec.port
      | none => domain_lookup_inner server fuel rec.name rec.port := by
  simp [domain_lookup_inner, chaseStep, h]

/-- With no SRV answer and an A answer, a round stringifies the address,
which parses straight back, ending the chase at that address with the
current port. -/
theorem inner_round_a (server : DnsServer) (domain : String)
    (port fuel : Nat) (addr : Ipv4)
    (hsrv : server.srv ("_minecraft._tcp." ++ domain) = .noAns)
    (ha : server.a domain = .ans addr) :
    domain_lookup_inner server (fuel + 1) domain port =
      .ok (.v4 addr) port := by
  simp [domain_lookup_inner, chaseStep, hsrv, ha, ipFromStr_ipv4ToString]

/-- With no SRV or A answer and a CNAME answer, a round adopts the
target name, keeping the current port. -/
theorem inner_round_cname (server : DnsServer) (domain : String)
    (port fuel : Nat) (target : String)
    (hsrv : server.srv ("_minecraft._tcp." ++ domain) = .noAns)
    (ha : server.a domain = .noAns)
    (hc : server.cname domain = .ans target) :
    domain_lookup_inner server (fuel + 1) domain port =
      match ipFromStr target with
      | some ip => .ok ip port
      | none => domain_lookup_inner server fuel target port := by
  simp [domain_lookup_inner, chaseStep, hsrv, ha, hc]

/-- With none of the three record kinds answering, a round fails with the
"no valid records" error — whatever the domain, even a literal IP. -/
theorem inner_round_none (server : DnsServer) (domain : String)
    (port fuel : Nat)
    (hsrv : server.srv ("_minecraft._tcp." ++ domain) = .noAns)
    (ha : server.a domain = .noAns)
    (hc : server.cname domain = .noAns) :
    domain_lookup_inner server (fuel + 1) domain port =
      .fail .noRecords := by
  simp [domain_lookup_inner, chaseStep, hsrv, ha, hc]

/-! ## Claims about the record chase -/

/-- C1: one round against a single nameserver consults SRV (at query
name `_minecraft._tcp.<domain>`), then A, then CNAME, in that fixed
order; an SRV answer replaces both domain and port, an A answer adopts
the address keeping the current port, a CNAME answer replaces only the
domain; the literal-IP test happens only after adopting an answer (so a
round over a domain with no records fails with NoRecords even when that
domain is itself a literal IP); with no answer of any kind the round
fails with NoRecords. -/
theorem chase_round_fixed_order (server : DnsServer) (domain : String)
    (port fuel : Nat) :
    (∀ rec, server.srv ("_minecraft._tcp." ++ domain) = .ans rec →
      domain_lookup_inner server (fuel + 1) domain port =
        match ipFromStr rec.name with
        | some ip => .ok ip rec.port
        | none => domain_lookup_inner server fuel rec.name rec.port)
    ∧ (∀ addr, server.srv ("_minecraft._tcp." ++ domain) = .noAns →
        server.a domain = .ans addr →
        domain_lookup_inner server (fuel + 1) domain port =
          .ok (.v4 addr) port)
    ∧ (∀ target, server.srv ("_minecraft._tcp." ++ domain) = .noAns →
        server.a domain = .noAns → server.cname domain = .ans target →
        domain_lookup_inner server (fuel + 1) domain port =
          match ipFromStr target with
          | some ip => .ok ip port
          | none => domain_lookup_inner server fuel target port)
    ∧ (server.srv ("_minecraft._tcp." ++ domain) = .noAns →
        server.a domain = .noAns → server.cname domain = .noAns →
        domain_lookup_inner server (fuel + 1) domain port =
          .fail .noRecords) :=
  ⟨fun rec h => inner_round_srv server domain port fuel rec h,
   fun addr h1 h2 => inner_round_a server domain port fuel addr h1 h2,
   fun target h1 h2 h3 => inner_round_cname server domain port fuel target h1 h2 h3,
   fun h1 h2 h3 => inner_round_none server domain port fuel h1 h2 h3⟩

/-- A nameserver holding an SRV record for `example.com` pointing at
`mc.example.com` port 25566, and an A record for `mc.example.com`. -/
def exampleServer : DnsServer where
  srv := fun q =>
    if q = "_minecraft._tcp.example.com" then .ans ⟨"mc.example.com", 25566⟩
    else .noAns
  a := fun d => if d = "mc.example.com" then .ans ⟨10, 0, 0, 1⟩ else .noAns
  cname := fun _ => .noAns

/-- A nameserver with no records at all. -/
def emptyServer : DnsServer where
  srv := fun _ => .noAns
  a := fun _ => .noAns
  cname := fun _ => .noAns

/-- Witness for C1 at concrete inputs: the SRV round adopts the target,
the A round terminates with the SRV's port, and a record-less round over
the literal-IP domain `1.2.3.4` still fails with NoRecords. -/
theorem chase_round_fixed_order_witness :
    domain_lookup_inner exampleServer 2 "example.com" 25565 =
      domain_lookup_inner exampleServer 1 "mc.example.com" 25566
    ∧ domain_lookup_inner exampleServer 1 "mc.example.com" 25566 =
        .ok (.v4 ⟨10, 0, 0, 1⟩) 25566
    ∧ domain_lookup_inner emptyServer 1 "1.2.3.4" 25565 = .fail .noRecords := by
  refine ⟨?_, ?_, ?_⟩
  · have h := (chase_round_fixed_order exampleServer "example.com" 25565 1).1
      ⟨"mc.example.com", 25566⟩ (by decide)
    exact h.trans (by decide)
  · exact (chase_round_fixed_order exampleServer "mc.example.com" 25566 0).2.1
      ⟨10, 0, 0, 1⟩ (by decide) (by decide)
  · exact (chase_round_fixed_order emptyServer "1.2.3.4" 25565 0).2.2.2
      (by decide) (by decide) (by decide)

/-- C2: an SRV answer in the first round makes the result independent of
the caller's requested port, and the returned port is the SRV's — both
when the SRV target is already a literal IP and when it resolves through
an A record; a domain with only an A record resolves to that address
with the caller's original port; a CNAME chain of length 3 ending in an
A record keeps the caller's original port through every hop. -/
theorem resolved_port_semantics (server : DnsServer) (domain : String)
    (fuel : Nat) :
    (∀ rec p q, server.srv ("_minecraft._tcp." ++ domain) = .ans rec →
      domain_lookup_inner server (fuel + 1) domain p =
        domain_lookup_inner server (fuel + 1) domain q)
    ∧ (∀ rec ip p, server.srv ("_minecraft._tcp." ++ domain) = .ans rec →
        ipFromStr rec.name = some ip →
        domain_lookup_inner server (fuel + 1) domain p = .ok ip rec.port)
    ∧ (∀ rec addr p, server.srv ("_minecraft._tcp." ++ domain) = .ans rec →
        ipFromStr rec.name = none →
        server.srv ("_minecraft._tcp." ++ rec.name) = .noAns →
        server.a rec.name = .ans addr →
        domain_lookup_inner server (fuel + 2) domain p =
          .ok (.v4 addr) rec.port)
    ∧ (∀ addr port, server.srv ("_minecraft._tcp." ++ domain) = .noAns →
        server.a domain = .ans addr →
        domain_lookup_inner server (fuel + 1) domain port =
          .ok (.v4 addr) port)
    ∧ (∀ port n1 n2 addr,
        server.srv ("_minecraft._tcp." ++ domain) = .noAns →
        server.a domain = .noAns →
        server.cname domain = .ans n1 →
        ipFromStr n1 = none →
        server.srv ("_minecraft._tcp." ++ n1) = .noAns →
        server.a n1 = .noAns →
        server.cname n1 = .ans n2 →
        ipFromStr n2 = none →
        server.srv ("_minecraft._tcp." ++ n2) = .noAns →
        server.a n2 = .ans addr →
        domain_lookup_inner server (fuel + 3) domain port =
          .ok (.v4 addr) port) := by
  refine ⟨?_, ?_, ?_, ?_, ?_⟩
  · intro rec p q h
    rw [inner_round_srv server domain p fuel rec h,
      inner_round_srv server domain q fuel rec h]
  · intro rec ip p h hip
    rw [inner_round_srv server domain p fuel rec h, hip]
  · intro rec addr p h hip hsrv ha
    rw [inner_round_srv server domain p (fuel + 1) rec h, hip]
    exact inner_round_a server rec.name rec.port fuel addr hsrv ha
  · intro addr port h1 h2
    exact inner_round_a server domain port fuel addr h1 h2
  · intro port n1 n2 addr h1 h2 h3 hip1 h4 h5 h6 hip2 h7 h8
    rw [inner_round_cname server domain port (fuel + 2) n1 h1 h2 h3, hip1,
      inner_round_cname server n1 port (fuel + 1) n2 h4 h5 h6, hip2]
    exact inner_round_a server n2 port fuel addr h7 h8

/-- A nameserver with a CNAME chain
`c1.example → c2.example → c3.example` whose end has an A record. -/
def chainServer : DnsServer where
  srv := fun _ => .noAns
  a := fun d => if d = "c3.example" then .ans ⟨10, 0, 0, 3⟩ else .noAns
  cname := fun d =>
    if d = "c1.example" then .ans "c2.example"
    else if d = "c2.example" then .ans "c3.example" else .noAns

/-- Witness for C2 at concrete inputs: SRV overrides the requested port
(25565 and 1 give the same result, with the SRV port 25566 in it), and a
3-hop CNAME chain delivers the terminal address with the original
requested port 7777. -/
theorem resolved_port_semantics_witness :
    domain_lookup_inner exampleServer 2 "example.com" 25565 =
      domain_lookup_inner exampleServer 2 "example.com" 1
    ∧ domain_lookup_inner exampleServer 2 "example.com" 25565 =
        .ok (.v4 ⟨10, 0, 0, 1⟩) 25566
    ∧ domain_lookup_inner chainServer 3 "c1.example" 7777 =
        .ok (.v4 ⟨10, 0, 0, 3⟩) 7777 := by
  refine ⟨?_, ?_, ?_⟩
  · exact (resolved_port_semantics exampleServer "example.com" 1).1
      ⟨"mc.example.com", 25566⟩ 25565 1 (by decide)
  · exact (resolved_port_semantics exampleServer "example.com" 0).2.2.1
      ⟨"mc.example.com", 25566⟩ ⟨10, 0, 0, 1⟩ 25565 (by decide) (by decide)
      (by decide) (by decide)
  · exact (resolved_port_semantics chainServer "c1.example" 0).2.2.2.2
      7777 "c2.example" "c3.example" ⟨10, 0, 0, 3⟩ (by decide) (by decide)
      (by decide) (by decide) (by decide) (by decide) (by decide) (by decide)
      (by decide) (by decide)

/-- A nameserver realising the CNAME cycle
`a.example → b.example → a.example` with no SRV or A records. -/
def cyclicServer : DnsServer where
  srv := fun _ => .noAns
  a := fun _ => .noAns
  cname := fun n =>
    if n = "a.example" then .ans "b.example"
    else if n = "b.example" then .ans "a.example" else .noAns

/-- C3 (against the code): on the CNAME cycle the chase exhausts any
fuel bound without ever producing a result or an error — the Rust
original, which is this function at unbounded fuel, recurses forever;
there is no hop bound and no TooManyHops/CnameLoop failure. -/
theorem cname_cycle_never_terminates : ∀ fuel : Nat,
    domain_lookup_inner cyclicServer fuel "a.example" 25565 = .outOfFuel
    ∧ domain_lookup_inner cyclicServer fuel "b.example" 25565 = .outOfFuel := by
  intro fuel
  induction fuel with
  | zero => exact ⟨rfl, rfl⟩
  | succ n ih =>
    have ha : domain_lookup_inner cyclicServer (n + 1) "a.example" 25565 =
        domain_lookup_inner cyclicServer n "b.example" 25565 := by
      have h := inner_round_cname cyclicServer "a.example" 25565 n
        "b.example" rfl rfl (by decide)
      exact h.trans (by rw [show ipFromStr "b.example" = none from rfl])
    have hb : domain_lookup_inner cyclicServer (n + 1) "b.example" 25565 =
        domain_lookup_inner cyclicServer n "a.example" 25565 := by
      have h := inner_round_cname cyclicServer "b.example" 25565 n
        "a.example" rfl rfl (by decide)
      exact h.trans (by rw [show ipFromStr "a.example" = none from rfl])
    exact ⟨ha.trans ih.2, hb.trans ih.1⟩

/-! ## Multi-server fallback lemmas -/

/-- The whole-tier error arises exactly when every nameserver fails. -/
theorem with_servers_eq_none_iff (li : IpAddr → Option (IpAddr × Nat)) :
    ∀ servers, domain_lookup_with_servers li servers = none ↔
      ∀ s ∈ servers, li s = none := by
  intro servers
  induction servers with
  | nil => simp [domain_lookup_with_servers]
  | cons server rest ih =>
    cases h : li server with
    | none => simp [domain_lookup_with_servers, h, ih]
    | some r => simp [domain_lookup_with_servers, h]

/-- When every nameserver fails, every nameserver is attempted. -/
theorem attempted_of_all_fail (li : IpAddr → Option (IpAddr × Nat)) :
    ∀ servers, (∀ s ∈ servers, li s = none) →
      attempted_servers li servers = servers := by
  intro servers
  induction servers with
  | nil => intro _; rfl
  | cons server rest ih =>
    intro h
    have hs : li server = none := h server (List.mem_cons_self server rest)
    simp [attempted_servers, hs,
      ih fun s hm => h s (List.mem_cons_of_mem server hm)]

/-- The attempted nameservers are an initial segment of the given list. -/
theorem attempted_is_initial_segment (li : IpAddr → Option (IpAddr × Nat)) :
    ∀ servers, ∃ tail, servers = attempted_servers li servers ++ tail := by
  intro servers
  induction servers with
  | nil => exact ⟨[], rfl⟩
  | cons server rest ih =>
    cases h : li server with
    | none =>
      obtain ⟨tail, htail⟩ := ih
      exact ⟨tail, by simp [attempted_servers, h]; exact htail⟩
    | some r => exact ⟨rest, by simp [attempted_servers, h]⟩

/-- C4: the fallback tries nameservers strictly in list order, returns
the first success without consulting any later nameserver, and yields
the all-servers-failed error exactly when every nameserver in the list
failed; an individual failure only advances the iteration. -/
theorem multi_server_fallback (li : IpAddr → Option (IpAddr × Nat)) :
    (∀ servers, domain_lookup_with_servers li servers = none ↔
      ∀ s ∈ servers, li s = none)
    ∧ (∀ server rest result, li server = some result →
        domain_lookup_with_servers li (server :: rest) = some result
        ∧ attempted_servers li (server :: rest) = [server])
    ∧ (∀ server rest, li server = none →
        domain_lookup_with_servers li (server :: rest) =
          domain_lookup_with_servers li rest
        ∧ attempted_servers li (server :: rest) =
            server :: attempted_servers li rest)
    ∧ (∀ servers, ∃ tail,
        servers = attempted_servers li servers ++ tail) := by
  refine ⟨with_servers_eq_none_iff li, ?_, ?_, attempted_is_initial_segment li⟩
  · intro server rest result h
    exact ⟨by simp [domain_lookup_with_servers, h],
      by simp [attempted_servers, h]⟩
  · intro server rest h
    exact ⟨by simp [domain_lookup_with_servers, h],
      by simp [attempted_servers, h]⟩

/-- A per-server resolver succeeding only at `9.9.9.9`. -/
def liWitness : IpAddr → Option (IpAddr × Nat) := fun s =>
  if s = .v4 ⟨9, 9, 9, 9⟩ then some (.v4 ⟨9, 9, 9, 9⟩, 1) else none

/-- Witness for C4 at concrete inputs: a failing server is skipped, the
succeeding one ends the iteration. -/
theorem multi_server_fallback_witness :
    (domain_lookup_with_servers liWitness
        [IpAddr.v4 ⟨9, 9, 9, 9⟩, IpAddr.v4 ⟨8, 8, 8, 8⟩] =
      some (.v4 ⟨9, 9, 9, 9⟩, 1)
    ∧ attempted_servers liWitness
        [IpAddr.v4 ⟨9, 9, 9, 9⟩, IpAddr.v4 ⟨8, 8, 8, 8⟩] =
      [IpAddr.v4 ⟨9, 9, 9, 9⟩])
    ∧ domain_lookup_with_servers liWitness [IpAddr.v4 ⟨8, 8, 8, 8⟩] = none :=
  ⟨(multi_server_fallback liWitness).2.1 (.v4 ⟨9, 9, 9, 9⟩)
      [IpAddr.v4 ⟨8, 8, 8, 8⟩] (.v4 ⟨9, 9, 9, 9⟩, 1) (by decide),
   ((multi_server_fallback liWitness).1 [IpAddr.v4 ⟨8, 8, 8, 8⟩]).2
      (by decide)⟩

/-- C5: the entry point returns the OS-discovered tier's result when
that tier succeeds, otherwise the result of the hardcoded tier
`1.1.1.1` then `1.0.0.1`; it fails only when both tiers failed, and when
every OS server fails the default pair is still attempted. -/
theorem resolve_entry_two_tier (li : IpAddr → Option (IpAddr × Nat))
    (osServers : List IpAddr) :
    DEFAULT_DNS_SERVERS = [IpAddr.v4 ⟨1, 1, 1, 1⟩, IpAddr.v4 ⟨1, 0, 0, 1⟩]
    ∧ (∀ result, domain_lookup_with_servers li osServers = some result →
        domain_lookup li osServers = some result)
    ∧ (domain_lookup_with_servers li osServers = none →
        domain_lookup li osServers =
          domain_lookup_with_servers li DEFAULT_DNS_SERVERS)
    ∧ (domain_lookup li osServers = none ↔
        (domain_lookup_with_servers li osServers = none
        ∧ domain_lookup_with_servers li DEFAULT_DNS_SERVERS = none))
    ∧ ((∀ s ∈ osServers, li s = none) →
        domain_lookup_attempts li osServers =
          osServers ++ attempted_servers li DEFAULT_DNS_SERVERS) := by
  refine ⟨rfl, ?_, ?_, ?_, ?_⟩
  · intro result h
    simp [domain_lookup, h]
  · intro h
    simp [domain_lookup, h]
  · cases h : domain_lookup_with_servers li osServers with
    | some r => simp [domain_lookup, h]
    | none => simp [domain_lookup, h]
  · intro h
    have hnone : domain_lookup_with_servers li osServers = none :=
      (with_servers_eq_none_iff li osServers).2 h
    simp [domain_lookup_attempts, hnone, attempted_of_all_fail li osServers h]

/-- Witness for C5 at concrete inputs: with every server failing, all of
`8.8.8.8`, `1.1.1.1`, `1.0.0.1` are attempted in that order. -/
theorem resolve_entry_two_tier_witness :
    domain_lookup_attempts (fun _ => none) [IpAddr.v4 ⟨8, 8, 8, 8⟩] =
      [IpAddr.v4 ⟨8, 8, 8, 8⟩, IpAddr.v4 ⟨1, 1, 1, 1⟩,
       IpAddr.v4 ⟨1, 0, 0, 1⟩] := by
  have h := (resolve_entry_two_tier (fun _ => none)
    [IpAddr.v4 ⟨8, 8, 8, 8⟩]).2.2.2.2 (fun _ _ => rfl)
  exact h.trans (by decide)

/-- C10: when discovery found nothing the provider's list is itself the
default pair, so on total failure the entry point attempts `1.1.1.1` and
`1.0.0.1` twice each — once as the "OS" tier, once as the hardcoded
tier — before reporting the error. -/
theorem defaults_attempted_twice (li : IpAddr → Option (IpAddr × Nat)) :
    dns_servers none = DEFAULT_DNS_SERVERS
    ∧ default_servers = DEFAULT_DNS_SERVERS
    ∧ ((∀ s ∈ DEFAULT_DNS_SERVERS, li s = none) →
        domain_lookup li (dns_servers none) = none
        ∧ domain_lookup_attempts li (dns_servers none) =
            [IpAddr.v4 ⟨1, 1, 1, 1⟩, IpAddr.v4 ⟨1, 0, 0, 1⟩,
             IpAddr.v4 ⟨1, 1, 1, 1⟩, IpAddr.v4 ⟨1, 0, 0, 1⟩]) := by
  refine ⟨rfl, rfl, ?_⟩
  intro h
  have hnone : domain_lookup_with_servers li DEFAULT_DNS_SERVERS = none :=
    (with_servers_eq_none_iff li DEFAULT_DNS_SERVERS).2 h
  have hatt : attempted_servers li DEFAULT_DNS_SERVERS =
      DEFAULT_DNS_SERVERS :=
    attempted_of_all_fail li DEFAULT_DNS_SERVERS h
  constructor
  · show domain_lookup li DEFAULT_DNS_SERVERS = none
    simp [domain_lookup, hnone]
  · show domain_lookup_attempts li DEFAULT_DNS_SERVERS = _
    simp [domain_lookup_attempts, hnone, hatt]
    rfl

/-- Witness for C10: with every lookup failing, the attempted list is
the default pair twice over. -/
theorem defaults_attempted_twice_witness :
    domain_lookup (fun _ => none) (dns_servers none) = none
    ∧ domain_lookup_attempts (fun _ => none) (dns_servers none) =
        [IpAddr.v4 ⟨1, 1, 1, 1⟩, IpAddr.v4 ⟨1, 0, 0, 1⟩,
         IpAddr.v4 ⟨1, 1, 1, 1⟩, IpAddr.v4 ⟨1, 0, 0, 1⟩] :=
  (defaults_attempted_twice (fun _ => none)).2.2 (fun _ _ => rfl)

/-! ## Unix discovery claims -/

/-- The specification's reading of Unix discovery: for each line, the
remainder after the `nameserver ` marker parsed as an IP address, in
file order, with non-matching and non-parsing lines skipped. -/
def spec_unix_servers (resolv_conf : String) : List IpAddr :=
  (rustLines resolv_conf).filterMap fun line =>
    (dropNameserver line).bind ipFromStr

/-- C6: Unix discovery returns exactly the addresses parsed from the
remainder of each `nameserver `-led line, in file order, skipping other
lines; it answers no-servers-found exactly when the file is unreadable
or no line yields a valid address; on the spec's example file it yields
`8.8.8.8` then `1.1.1.1`. -/
theorem unix_discovery_exact :
    (∀ contents, unix_find_servers (some contents) =
      if spec_unix_servers contents = [] then none
      else some (spec_unix_servers contents))
    ∧ unix_find_servers none = none
    ∧ unix_find_servers
        (some "nameserver 8.8.8.8\ngarbage\nnameserver 1.1.1.1") =
      some [.v4 ⟨8, 8, 8, 8⟩, .v4 ⟨1, 1, 1, 1⟩] := by
  refine ⟨?_, rfl, by decide⟩
  intro contents
  show (if (((rustLines contents).filterMap dropNameserver).filterMap
        ipFromStr).length > 0
      then some (((rustLines contents).filterMap dropNameserver).filterMap
        ipFromStr)
      else none) = _
  rw [List.filterMap_filterMap]
  show (if 0 < (spec_unix_servers contents).length
      then some (spec_unix_servers contents) else none)
    = if spec_unix_servers contents = [] then none
      else some (spec_unix_servers contents)
  rcases eq_or_ne (spec_unix_servers contents) [] with h | h
  · rw [h]
    rfl
  · rw [if_neg h, if_pos (List.length_pos.2 h)]

/-! ## Nameserver provider claims -/

/-- Unix discovery never answers an empty list wrapped in `some`. -/
theorem unix_find_servers_ne_some_nil (contents : Option String)
    (l : List IpAddr) (h : unix_find_servers contents = some l) : l ≠ [] := by
  cases contents with
  | none => simp [unix_find_servers] at h
  | some c =>
    simp only [unix_find_servers] at h
    split at h
    · cases h
      intro hnil
      simp_all
    · cases h

/-- Windows discovery never answers an empty list wrapped in `some`. -/
theorem windows_find_servers_ne_some_nil (api : Option (List RawAdapter))
    (l : List IpAddr) (h : windows_find_servers api = some l) : l ≠ [] := by
  cases api with
  | none => simp [windows_find_servers, adapterInfoList_new] at h
  | some raws =>
    simp only [windows_find_servers, adapterInfoList_new] at h
    split at h
    · cases h
      intro hnil
      simp_all
    · cases h

/-- C9: the provider substitutes the hardcoded pair `1.1.1.1`, `1.0.0.1`
exactly when discovery found nothing, passes a discovered list through
unchanged, and — since neither platform discovery can answer an empty
`some` list — the list handed to the fallback is never empty. -/
theorem provider_list_never_empty :
    (∀ found, found = none → dns_servers found = default_servers)
    ∧ (∀ l, dns_servers (some l) = l)
    ∧ (∀ contents, dns_servers (unix_find_servers contents) ≠ [])
    ∧ (∀ api, dns_servers (windows_find_servers api) ≠ [])
    ∧ default_servers =
        [IpAddr.v4 ⟨1, 1, 1, 1⟩, IpAddr.v4 ⟨1, 0, 0, 1⟩] := by
  refine ⟨?_, fun l => rfl, ?_, ?_, rfl⟩
  · intro found h
    rw [h]
    rfl
  · intro contents
    cases hfs : unix_find_servers contents with
    | none => simp [dns_servers, default_servers]
    | some l =>
      simpa [dns_servers] using unix_find_servers_ne_some_nil contents l hfs
  · intro api
    cases hfs : windows_find_servers api with
    | none => simp [dns_servers, default_servers]
    | some l =>
      simpa [dns_servers] using windows_find_servers_ne_some_nil api l hfs

/-- Witness for C9 at concrete inputs: an unreadable file degrades to the
default pair, and a file with one valid `nameserver` line is nonempty. -/
theorem provider_list_never_empty_witness :
    dns_servers (unix_find_servers none) = default_servers
    ∧ dns_servers (unix_find_servers (some "nameserver 8.8.8.8")) ≠ [] :=
  ⟨provider_list_never_empty.1 (unix_find_servers none) rfl,
   provider_list_never_empty.2.2.1 (some "nameserver 8.8.8.8")⟩

/-! ## Windows discovery claims -/

/-- True when an adapter's DNS-entry list carries an address family that
is neither IPv4 nor IPv6. -/
def hasUnknownFamily (raw : RawAdapter) : Bool :=
  raw.entries.any fun e =>
    match e with
    | .unknown _ => true
    | _ => false

/-- An unrecognized family anywhere in the entry list makes the whole
per-adapter walk answer `None`. -/
theorem read_dns_servers_eq_none_of_unknown :
    ∀ entries : List RawDnsEntry,
      (entries.any fun e =>
        match e with
        | .unknown _ => true
        | _ => false) = true →
      read_dns_servers entries = none := by
  intro entries
  induction entries with
  | nil => intro h; cases h
  | cons e rest ih =>
    intro h
    cases e with
    | v4 addr =>
      simp only [List.any_cons, Bool.or_eq_true] at h
      rcases h with h | h
      · cases h
      · simp [read_dns_servers, ih h]
    | v6 addr =>
      simp only [List.any_cons, Bool.or_eq_true] at h
      rcases h with h | h
      · cases h
      · simp [read_dns_servers, ih h]
    | unknown fam => rfl

/-- Adapters with an unrecognized family contribute no `AdapterInfo`, so
removing them from the raw list leaves the collected adapters unchanged. -/
theorem filterMap_new_skips_unknown :
    ∀ raws : List RawAdapter,
      raws.filterMap AdapterInfo.new =
        (raws.filter fun raw => !hasUnknownFamily raw).filterMap
          AdapterInfo.new := by
  intro raws
  induction raws with
  | nil => rfl
  | cons raw rest ih =>
    cases hu : hasUnknownFamily raw with
    | true =>
      have hnone : AdapterInfo.new raw = none := by
        simp [AdapterInfo.new,
          read_dns_servers_eq_none_of_unknown raw.entries hu]
      simp [List.filterMap_cons, List.filter_cons, hnone, hu, ih]
    | false => simp [List.filterMap_cons, List.filter_cons, hu, ih]

/-- The good adapter of the C7 counterexample: metrics 5/5, one valid
IPv4 DNS entry `8.8.8.8`. -/
def goodAdapter : RawAdapter where
  ipv4Metric := 5
  ipv6Metric := 5
  entries := [.v4 ⟨8, 8, 8, 8⟩]

/-- The bad adapter of the C7 counterexample: a valid entry followed by
one with unrecognized address family 99. -/
def badAdapter : RawAdapter where
  ipv4Metric := 1
  ipv6Metric := 1
  entries := [.v4 ⟨9, 9, 9, 9⟩, .unknown 99]

/-- C7 fails on the code: with one healthy adapter and one adapter whose
DNS entry carries address family 99, discovery still returns the healthy
adapter's server — it neither aborts the enumeration nor degrades to
no-servers-found. -/
theorem unknown_family_counterexample :
    windows_find_servers (some [goodAdapter, badAdapter]) =
      some [IpAddr.v4 ⟨8, 8, 8, 8⟩]
    ∧ windows_find_servers (some [goodAdapter, badAdapter]) ≠ none := by
  constructor
  · decide
  · decide

/-- C7 as amended: a DNS entry with an unrecognized address family
aborts only its own adapter's collection — that adapter is dropped
whole, its already-collected servers discarded — while every other
adapter still contributes, so discovery is unchanged by removing the
affected adapters from the enumeration. -/
theorem unknown_family_skips_adapter (raws : List RawAdapter) :
    (∀ raw, hasUnknownFamily raw = true → AdapterInfo.new raw = none)
    ∧ windows_find_servers (some raws) =
        windows_find_servers
          (some (raws.filter fun raw => !hasUnknownFamily raw)) := by
  constructor
  · intro raw hu
    simp [AdapterInfo.new,
      read_dns_servers_eq_none_of_unknown raw.entries hu]
  · show windows_find_servers (some raws) = _
    simp only [windows_find_servers, adapterInfoList_new]
    rw [filterMap_new_skips_unknown raws]

/-- Witness for C7's amended claim at concrete inputs: the bad adapter
yields no `AdapterInfo`, and dropping it from the enumeration leaves
discovery unchanged. -/
theorem unknown_family_skips_adapter_witness :
    AdapterInfo.new badAdapter = none
    ∧ windows_find_servers (some [goodAdapter, badAdapter]) =
        windows_find_servers (some [goodAdapter]) := by
  constructor
  · exact (unknown_family_skips_adapter []).1 badAdapter (by decide)
  · have h := (unknown_family_skips_adapter [goodAdapter, badAdapter]).2
    exact h.trans (by decide)

/-! ## Adapter-metric sorting (C8) -/

instance : IsTotal AdapterInfo fun a b => adapterKey a ≤ adapterKey b :=
  ⟨fun a b => Nat.le_total (adapterKey a) (adapterKey b)⟩

instance : IsTrans AdapterInfo fun a b => adapterKey a ≤ adapterKey b :=
  ⟨fun _ _ _ hab hbc => Nat.le_trans hab hbc⟩

/-- Any list splits around the element at a valid index. -/
theorem exists_split_at {α : Type} :
    ∀ (l : List α) (k : Nat) (hk : k < l.length),
      ∃ l1 l2, l = l1 ++ (l.get ⟨k, hk⟩ :: l2) := by
  intro l
  induction l with
  | nil => intro k hk; cases hk
  | cons x t ih =>
    intro k hk
    cases k with
    | zero => exact ⟨[], t, rfl⟩
    | succ n =>
      obtain ⟨l1, l2, hsplit⟩ := ih n (Nat.lt_of_succ_lt_succ hk)
      exact ⟨x :: l1, l2, by simpa using hsplit⟩

/-- Any list splits around two elements at ordered valid indices. -/
theorem exists_split_two {α : Type} :
    ∀ (l : List α) (i j : Nat) (hij : i < j) (hj : j < l.length),
      ∃ l1 l2 l3, l = l1 ++ ((l.get ⟨i, Nat.lt_trans hij hj⟩) ::
        (l2 ++ ((l.get ⟨j, hj⟩) :: l3))) := by
  intro l
  induction l with
  | nil => intro i j hij hj; cases hj
  | cons x t ih =>
    intro i j hij hj
    cases i with
    | zero =>
      cases j with
      | zero => cases hij
      | succ m =>
        obtain ⟨l1, l2, hsplit⟩ :=
          exists_split_at t m (Nat.lt_of_succ_lt_succ hj)
        exact ⟨[], l1, l2, by simpa using hsplit⟩
    | succ n =>
      cases j with
      | zero => cases hij
      | succ m =>
        obtain ⟨l1, l2, l3, hsplit⟩ :=
          ih n m (Nat.lt_of_succ_lt_succ hij) (Nat.lt_of_succ_lt_succ hj)
        exact ⟨x :: l1, l2, l3, by simpa using hsplit⟩

/-- Flattening a list of adapters around two ordered positions. -/
theorem flatMap_split_two {α β : Type} (f : α → List β) (l : List α)
    (i j : Fin l.length) (hij : i.val < j.val) :
    ∃ front mid back, l.flatMap f =
      front ++ (f (l.get i) ++ (mid ++ (f (l.get j) ++ back))) := by
  obtain ⟨l1, l2, l3, hsplit⟩ := exists_split_two l i.val j.val hij j.isLt
  refine ⟨l1.flatMap f, l2.flatMap f, l3.flatMap f, ?_⟩
  conv_lhs => rw [hsplit]
  simp

/-- C8: after a successful enumeration the adapter list is a permutation
of the collected adapters sorted ascending by
`min(ipv4_metric, ipv6_metric)`, and in the flattened server list an
adapter with strictly smaller minimum metric contributes its whole
server block earlier than one with a larger minimum metric — whatever
order the platform API enumerated the raw adapters in. -/
theorem adapter_metric_sorting (raws : List RawAdapter)
    (l : List AdapterInfo)
    (h : adapterInfoList_new (some raws) = some l) :
    List.Perm l (raws.filterMap AdapterInfo.new)
    ∧ l.Sorted (fun a b => adapterKey a ≤ adapterKey b)
    ∧ ∀ i j : Fin l.length,
        adapterKey (l.get i) < adapterKey (l.get j) →
        ∃ front mid back, adapterList_dns_servers l =
          front ++ ((l.get i).dns_servers ++
            (mid ++ ((l.get j).dns_servers ++ back))) := by
  have hl : l = (raws.filterMap AdapterInfo.new).insertionSort
      (fun a b => adapterKey a ≤ adapterKey b) := by
    simpa [adapterInfoList_new] using h.symm
  subst hl
  refine ⟨List.perm_insertionSort _ _, List.sorted_insertionSort _ _, ?_⟩
  intro i j hij
  have hsorted := List.sorted_insertionSort
    (fun a b => adapterKey a ≤ adapterKey b)
    (raws.filterMap AdapterInfo.new)
  have hlt : i.val < j.val := by
    rcases Nat.lt_trichotomy i.val j.val with hc | hc | hc
    · exact hc
    · exfalso
      have hji : i = j := Fin.ext hc
      rw [hji] at hij
      exact lt_irrefl _ hij
    · exfalso
      have hle := hsorted.rel_get_of_lt (show j < i from hc)
      exact absurd hij (Nat.not_lt.2 hle)
  exact flatMap_split_two (fun adapter => adapter.dns_servers) _ i j hlt

/-- Witness for C8 at concrete inputs: two adapters with minimum metrics
5 and 1, enumerated worst-first, come back sorted best-first. -/
theorem adapter_metric_sorting_witness :
    List.Sorted (fun a b => adapterKey a ≤ adapterKey b)
      ([⟨1, 1, [IpAddr.v4 ⟨9, 9, 9, 9⟩]⟩,
        ⟨5, 5, [IpAddr.v4 ⟨8, 8, 8, 8⟩]⟩] : List AdapterInfo) :=
  (adapter_metric_sorting
    [⟨5, 5, [.v4 ⟨8, 8, 8, 8⟩]⟩, ⟨1, 1, [.v4 ⟨9, 9, 9, 9⟩]⟩]
    [⟨1, 1, [IpAddr.v4 ⟨9, 9, 9, 9⟩]⟩, ⟨5, 5, [IpAddr.v4 ⟨8, 8, 8, 8⟩]⟩]
    (by decide)).2.1

end MinecraftDns
